import Mathlib

/-!
Verification development for the PySeed demo project.

The repository drives a browser through one scripted task: launch a managed
Chrome profile, navigate to YouTube, submit a search, scrape result titles and
persist them.  We give a shallow embedding of the Python sources:

* `src/config.py`      — configuration constants (`Config`);
* `src/youtube_automation.py` — the `YouTubeAutomation` steps, modelled as
  functions over a `DomEnv` oracle that records the outcome of every
  driver/wait primitive the code invokes (success, or the exception it raises);
* `src/utils.py`       — `FileHandler`, modelled over an explicit filesystem
  state `FS`; the external `json`/`csv` codecs are modelled at the level of
  their contracts (structured documents), not byte streams;
* `src/chrome_driver.py` — `ChromeDriverManager.create_driver` and the
  `managed_driver` context manager, with the exact CPython `contextlib`
  generator protocol semantics spelled out;
* `src/core.py`        — the orchestrator `run_youtube_demo`.

Exceptions are modelled with `Except`; a Python function that catches all
exceptions and returns a default is embedded as a total function.
-/

deriving instance DecidableEq for Except

namespace PySeed

/-! ### Config constants (src/config.py) -/

def YOUTUBE_URL : String := "https://www.youtube.com"

def DEFAULT_SEARCH_TERM : String := "What's New"

def ELEMENT_WAIT_TIMEOUT : Nat := 10

def PAGE_LOAD_TIMEOUT : Nat := 10

/-- `Config.DEFAULT_PROFILE_NAME` is the project folder name with a
`_profile` suffix; for this repository that is the constant below. -/
def DEFAULT_PROFILE_NAME : String := "PySeed_Demo_Project_profile"

/-! ### Driver/DOM oracle (src/youtube_automation.py)

Each selenium primitive the code calls either returns normally or raises an
exception (e.g. `TimeoutException` from a `WebDriverWait`).  A `DomEnv`
records, for one run, the outcome of each primitive in the order the code
uses them.  The Python methods then become deterministic functions of the
environment, with exactly the `try/except` structure of the source. -/

/-- An exception raised by a selenium primitive. -/
inductive DriverError where
  /-- `selenium.common.exceptions.TimeoutException` from a bounded wait. -/
  | timeout
  /-- any other WebDriver exception, with its message -/
  | other (msg : String)
deriving DecidableEq, Repr

/-- Outcomes of the driver primitives used by `YouTubeAutomation`, in source
order.  `videoTitleWait` is the result of
`wait.until(presence_of_all_elements_located((By.CSS_SELECTOR, "a#video-title")))`
followed by one `get_attribute("title")` read per element: each element
yields `some title` or `none` (attribute absent). -/
structure DomEnv where
  /-- `driver.get(YOUTUBE_URL)` -/
  navigateOutcome : Except DriverError Unit
  /-- `wait.until(presence_of_element_located((By.TAG_NAME, "body")))` -/
  bodyWait : Except DriverError Unit
  /-- `wait.until(presence_of_element_located((By.NAME, "search_query")))` -/
  searchBoxWait : Except DriverError Unit
  /-- `search_box.clear()` -/
  clearOutcome : Except DriverError Unit
  /-- `search_box.send_keys(search_term)` -/
  typeOutcome : Except DriverError Unit
  /-- `search_box.send_keys(Keys.RETURN)` -/
  submitOutcome : Except DriverError Unit
  /-- `wait.until(presence_of_element_located((By.ID, "contents")))` -/
  resultsWait : Except DriverError Unit
  /-- the `a#video-title` elements and their `title` attributes -/
  videoTitleWait : Except DriverError (List (Option String))
deriving DecidableEq, Repr

/-- `YouTubeAutomation.navigate_to_youtube`: `driver.get` then a bounded wait
for the `body` tag.  No `try/except` here — any exception propagates. -/
def navigate_to_youtube (env : DomEnv) : Except DriverError Unit := do
  env.navigateOutcome
  env.bodyWait

/-- `YouTubeAutomation.search`: the whole body is wrapped in
`try: ... return True / except Exception: return False`. -/
def search (env : DomEnv) (search_term : String) : Bool :=
  let attempt : Except DriverError Unit := do
    env.searchBoxWait
    env.clearOutcome
    env.typeOutcome
    env.submitOutcome
    env.resultsWait
  match attempt with
  | .ok _ => true
  | .error _ => false

/-- The body of the `for element in video_elements[:max_results]` loop in
`get_video_titles`: read the `title` attribute and append it when truthy
(Python skips both a missing attribute and an empty string). -/
def collectTitle (titles : List String) (attr : Option String) : List String :=
  match attr with
  | some title => if title ≠ "" then titles ++ [title] else titles
  | none => titles

/-- `YouTubeAutomation.get_video_titles`: waits for the `a#video-title`
elements, then loops over `video_elements[:max_results]` collecting titles.
The whole body is wrapped in `try/except Exception: return []`. -/
def get_video_titles (env : DomEnv) (max_results : Nat) : List String :=
  match env.videoTitleWait with
  | .error _ => []
  | .ok video_elements =>
    (video_elements.take max_results).foldl collectTitle []

/-- `YouTubeAutomation.search_tech_news`: default the term, navigate
(uncaught), search, and only on search success extract titles
(`get_video_titles` with its default `max_results=10`); on search failure
return `[]`. -/
def search_tech_news (env : DomEnv) (search_term : Option String) :
    Except DriverError (List String) := do
  let term := search_term.getD DEFAULT_SEARCH_TERM
  navigate_to_youtube env
  let success := search env term
  if success then
    pure (get_video_titles env 10)
  else
    pure []

/-! ### FileHandler (src/utils.py)

`FileHandler` does text/JSON/CSV reads and writes relative to a base path.
The filesystem is an explicit state `FS`.  The stdlib `json` and `csv`
modules are external collaborators; we model them at the level of their
contracts: a file entry records which writer produced it (`json.dump`
content, csv writer content, or plain text), so that `json.dump` followed by
`json.load` is the identity and loading anything else is a
`JSONDecodeError`.  The textual rendering of structured entries (used only
by `read_text` on such entries) is a straightforward executable serializer;
no claim depends on its exact bytes. -/

/-- JSON-representable values: the model of the Python objects handed to
`json.dump` and returned by `json.load`.  Objects are insertion-ordered
key/value lists, as Python dicts are. -/
inductive JsonVal where
  | null
  | bool (b : Bool)
  | num (n : Int)
  | str (s : String)
  | arr (elems : List JsonVal)
  | obj (fields : List (String × JsonVal))

/-- Render a string as a JSON string literal (quote and backslash escapes;
contract-level model of `json.dump` with `ensure_ascii=False`). -/
def renderJsonString (s : String) : String :=
  "\"" ++ String.join (s.data.map (fun c =>
    if c = '"' then "\\\"" else if c = '\\' then "\\\\" else String.singleton c)) ++ "\""

mutual

/-- Contract-level serializer for `JsonVal` (the text `json.dump` produced). -/
def renderJson : JsonVal → String
  | .null => "null"
  | .bool true => "true"
  | .bool false => "false"
  | .num n => toString n
  | .str s => renderJsonString s
  | .arr elems => "[" ++ renderJsonVals elems ++ "]"
  | .obj fields => "\x7b" ++ renderJsonFields fields ++ "\x7d"

/-- Comma-separated rendering of array elements. -/
def renderJsonVals : List JsonVal → String
  | [] => ""
  | [v] => renderJson v
  | v :: rest => renderJson v ++ ", " ++ renderJsonVals rest

/-- Comma-separated rendering of object fields. -/
def renderJsonFields : List (String × JsonVal) → String
  | [] => ""
  | [kv] => renderJsonString kv.1 ++ ": " ++ renderJson kv.2
  | kv :: rest => renderJsonString kv.1 ++ ": " ++ renderJson kv.2 ++ ", " ++ renderJsonFields rest

end

/-- One CSV record as the csv module's `DictWriter`/`DictReader` see it: an
ordered field-name/value list. -/
def CsvRecord : Type := List (String × String)

instance : DecidableEq CsvRecord := by
  unfold CsvRecord
  infer_instance

/-- A file's on-disk content, tagged by which writer produced it.  The tag is
the contract-level model of the external codecs: only a file written by
`json.dump` parses with `json.load`; `textAsset` stands for text that is not
valid JSON (the only kind any claim exercises); `unreadable` is a file whose
`open`/read raises an I/O error that is not `FileNotFoundError`. -/
inductive FsEntry where
  /-- content produced by `json.dump data` -/
  | jsonDoc (data : JsonVal)
  /-- content produced by `csv.DictWriter` with the given header and rows -/
  | csvDoc (fieldnames : List String) (rows : List CsvRecord)
  /-- plain text (modelled as not being valid JSON) -/
  | textDoc (s : String)
  /-- opening or reading this file raises an OSError other than not-found -/
  | unreadable

/-- Render one CSV line (contract-level: no quoting model). -/
def renderCsvLine (cells : List String) : String :=
  String.intercalate "," cells

/-- The text of a file entry, as `read_text` would see it. -/
def FsEntry.textContent : FsEntry → String
  | .jsonDoc data => renderJson data
  | .csvDoc fieldnames rows =>
      String.intercalate "\r\n"
        (renderCsvLine fieldnames ::
          rows.map (fun row => renderCsvLine (row.map Prod.snd))) ++ "\r\n"
  | .textDoc s => s
  | .unreadable => ""

/-- The filesystem state: files by absolute path, the set of directories, and
the paths where opening for write raises an OSError (e.g. permissions). -/
structure FS where
  files : List (String × FsEntry)
  dirs : List String
  unwritable : List String

/-- Assoc-list lookup by path. -/
def lookupEntry (k : String) : List (String × FsEntry) → Option FsEntry
  | [] => none
  | (k2, v) :: rest => if k2 = k then some v else lookupEntry k rest

/-- Assoc-list update/insert by path (a successful write replaces content). -/
def setEntry (k : String) (v : FsEntry) : List (String × FsEntry) → List (String × FsEntry)
  | [] => [(k, v)]
  | (k2, v2) :: rest => if k2 = k then (k, v) :: rest else (k2, v2) :: setEntry k v rest

/-- `Path.parent` of a slash-separated path string. -/
def parentDir (p : String) : String :=
  String.intercalate "/" (p.splitOn "/").dropLast

/-- `full_path.parent.mkdir(parents=True, exist_ok=True)`. -/
def FS.mkdirParent (fs : FS) (p : String) : FS :=
  if parentDir p ∈ fs.dirs then fs
  else { fs with dirs := parentDir p :: fs.dirs }

/-- `FileHandler`: holds the base path set at construction
(`base_path or Path.cwd()`). -/
structure FileHandler where
  base_path : String
deriving DecidableEq

/-- `Path.is_absolute()` for slash-separated paths: the path starts with
`/`.  (Defined structurally on the character list so that it computes by
definitional reduction.) -/
def isAbsolutePath (p : String) : Bool :=
  match p.data with
  | [] => false
  | c :: _ => c = '/'

/-- Structural membership test for a path in a path list (computes by
definitional reduction). -/
def pathListed (k : String) : List String → Bool
  | [] => false
  | k2 :: rest => if k2 = k then true else pathListed k rest

/-- `FileHandler._resolve_path`: absolute paths pass through, relative paths
are joined to the base path. -/
def FileHandler.resolve_path (fh : FileHandler) (p : String) : String :=
  if isAbsolutePath p then p else fh.base_path ++ "/" ++ p

/-- `FileHandler.read_text`: returns the content; `""` on
`FileNotFoundError` and on any other exception. -/
def FileHandler.read_text (fh : FileHandler) (fs : FS) (p : String) : String :=
  let full := fh.resolve_path p
  match lookupEntry full fs.files with
  | none => ""
  | some .unreadable => ""
  | some e => e.textContent

/-- `FileHandler.write_text`: mkdir the parent, then write; `false` (and no
file change) when the write raises, `true` otherwise. -/
def FileHandler.write_text (fh : FileHandler) (fs : FS) (p content : String) : Bool × FS :=
  let full := fh.resolve_path p
  let fs1 := fs.mkdirParent full
  if pathListed full fs.unwritable then
    (false, fs1)
  else
    (true, { fs1 with files := setEntry full (.textDoc content) fs1.files })

/-- `FileHandler.read_json`: `json.load` of the file; `.obj []` (Python `{}`
rendered as the empty object) on `FileNotFoundError`, on `JSONDecodeError`
(any entry not written by `json.dump`), and on any other exception. -/
def FileHandler.read_json (fh : FileHandler) (fs : FS) (p : String) : JsonVal :=
  let full := fh.resolve_path p
  match lookupEntry full fs.files with
  | none => .obj []
  | some (.jsonDoc data) => data
  | some (.csvDoc _ _) => .obj []
  | some (.textDoc _) => .obj []
  | some .unreadable => .obj []

/-- `FileHandler.write_json`: mkdir the parent, then `json.dump data`;
`false` when the write raises, `true` otherwise. -/
def FileHandler.write_json (fh : FileHandler) (fs : FS) (p : String) (data : JsonVal) : Bool × FS :=
  let full := fh.resolve_path p
  let fs1 := fs.mkdirParent full
  if pathListed full fs.unwritable then
    (false, fs1)
  else
    (true, { fs1 with files := setEntry full (.jsonDoc data) fs1.files })

/-- `FileHandler.read_csv`: `list(csv.DictReader(f))`; `[]` on
`FileNotFoundError` and on any other exception.  Reading back a file the
csv writer produced recovers its records; the `DictReader` view of files not
written by the csv writer is not exercised by any contract and is modelled
as empty. -/
def FileHandler.read_csv (fh : FileHandler) (fs : FS) (p : String) : List CsvRecord :=
  let full := fh.resolve_path p
  match lookupEntry full fs.files with
  | none => []
  | some (.csvDoc _ rows) => rows
  | some (.jsonDoc _) => []
  | some (.textDoc _) => []
  | some .unreadable => []

/-- Project a record onto the header: `DictWriter` writes, for each field
name in order, the record's value for it (`restval=""` for a missing key). -/
def projectRecord (fieldnames : List String) (row : CsvRecord) : CsvRecord :=
  fieldnames.map (fun f => (f, (row.lookup f).getD ""))

/-- `FileHandler.write_csv`: empty data short-circuits to `false` before any
filesystem access; otherwise mkdir the parent, infer fieldnames from the
first record when not supplied, and write header plus rows; `false` when the
write raises.  (`DictWriter`'s ValueError on records with extra keys is not
modelled; no contract exercises it.) -/
def FileHandler.write_csv (fh : FileHandler) (fs : FS) (p : String)
    (data : List CsvRecord) (fieldnames : Option (List String)) : Bool × FS :=
  match data with
  | [] => (false, fs)
  | first :: rest =>
    let full := fh.resolve_path p
    let fs1 := fs.mkdirParent full
    if pathListed full fs.unwritable then
      (false, fs1)
    else
      let fns := fieldnames.getD (first.map Prod.fst)
      let rows := (first :: rest).map (projectRecord fns)
      (true, { fs1 with files := setEntry full (.csvDoc fns rows) fs1.files })

/-- `FileHandler.file_exists`. -/
def FileHandler.file_exists (fh : FileHandler) (fs : FS) (p : String) : Bool :=
  (lookupEntry (fh.resolve_path p) fs.files).isSome

/-! ### ChromeDriverManager (src/chrome_driver.py)

`create_driver` resolves the browser/driver binaries, checks their
existence, builds a unique profile path `profile_name + "_" + int(time.time())`
under the configured profile root, assembles the Chrome options and starts
the driver-managed process.  The host state observed during one call
(resolved paths, existence, the clock second, the launch outcome) is a
`ChromeEnv` oracle. -/

/-- A Python exception relevant to the driver-manager code paths. -/
inductive PyError where
  /-- `FileNotFoundError`, with its message -/
  | fileNotFound (msg : String)
  /-- any other `Exception`, with its message -/
  | exception (msg : String)
deriving DecidableEq, Repr

/-- Host state observed by one `create_driver` call. -/
structure ChromeEnv where
  /-- resolved Chrome binary path (`_get_chrome_paths`) -/
  chromeBinaryPath : String
  /-- resolved chromedriver path (`_get_chrome_paths`) -/
  driverBinaryPath : String
  /-- `chrome_binary.exists()` -/
  chromeBinaryExists : Bool
  /-- `driver_path.exists()` -/
  driverBinaryExists : Bool
  /-- `Config.get_chrome_profile_path()` -/
  profileRoot : String
  /-- `int(time.time())` at the profile-path computation -/
  timestamp : Nat
  /-- outcome of `webdriver.Chrome(service=service, options=options)` -/
  launchOutcome : Except String Unit
  /-- `self.platform` -/
  platform : String
deriving DecidableEq, Repr

/-- The Chrome options object `create_driver` assembles. -/
structure ChromeOptions where
  binary_location : String
  arguments : List String
  detachOption : Bool
  excludeAutomationSwitches : Bool
deriving DecidableEq, Repr

/-- The option set built in `create_driver` (source order). -/
def buildChromeOptions (chrome_binary profile_path : String) (detach : Bool)
    (platform : String) : ChromeOptions :=
  { binary_location := chrome_binary
    arguments :=
      ["--user-data-dir=" ++ profile_path,
       "--start-maximized",
       "--disable-infobars",
       "--no-first-run",
       "--disable-default-apps"]
      ++ (if platform = "Linux" then ["--no-sandbox"] else [])
    detachOption := detach
    excludeAutomationSwitches := true }

/-- The live WebDriver handle, with the configuration it was launched with. -/
structure Driver where
  profilePath : String
  options : ChromeOptions
deriving DecidableEq, Repr

/-- `ChromeDriverManager.create_driver`: default the profile name, raise
`FileNotFoundError` if either binary is missing, compute the
timestamp-suffixed profile path, build the options and launch. -/
def create_driver (env : ChromeEnv) (profile_name : Option String) (detach : Bool) :
    Except PyError Driver :=
  let name := profile_name.getD DEFAULT_PROFILE_NAME
  if env.chromeBinaryExists = false then
    .error (.fileNotFound ("Chrome binary not found at: " ++ env.chromeBinaryPath))
  else if env.driverBinaryExists = false then
    .error (.fileNotFound ("ChromeDriver not found at: " ++ env.driverBinaryPath))
  else
    let profile_path := env.profileRoot ++ "/" ++ name ++ "_" ++ Nat.repr env.timestamp
    match env.launchOutcome with
    | .ok _ =>
        .ok { profilePath := profile_path
              options := buildChromeOptions env.chromeBinaryPath profile_path detach env.platform }
    | .error msg => .error (.exception msg)

/-! #### `managed_driver` and the contextlib generator protocol

`managed_driver` is a `@contextmanager` generator whose `try` block wraps
both `create_driver` and the `yield`:

* `with`-entry (`__enter__`) runs the generator to its first `yield`.  If
  `create_driver` raises, the generator's own `except` clauses catch it,
  print, run the `finally` (driver is `None`, so nothing), and the generator
  returns without yielding — `contextlib` then raises
  `RuntimeError("generator didn't yield")` out of the `with`-entry.
* If the `with`-body completes (including an early `return`), `__exit__`
  resumes the generator, whose `finally` calls `driver.quit()` unless
  `keep_open` was set.
* If the `with`-body raises an `Exception`, `__exit__` throws it into the
  generator at the `yield`; the generator's `except` clauses catch it and
  the generator returns, so the protocol treats the exception as suppressed
  (it does not reach the code around the `with`); the `finally` still quits
  the driver unless `keep_open`.

`run_managed_driver` is that semantics, specialized to this generator, with
the `with`-body passed as a function.  One call is modelled, so
`self._keep_open` (set on entry, read in the `finally` via `getattr`) is the
`keep_open` argument.  `driver.quit()` is modelled as succeeding. -/

/-- How a `with managed_driver(...) as driver:` body ends. -/
inductive BodyOutcome (β : Type) where
  /-- the body completed (or returned early) with this value -/
  | value (b : β)
  /-- the body raised this exception -/
  | raised (e : PyError)
deriving DecidableEq

/-- How the whole `with` statement ends. -/
inductive WithOutcome (β : Type) where
  /-- an exception escaped `__enter__` (the with-body never ran) -/
  | entryRaised (msg : String)
  /-- the body ran to completion and the exit completed -/
  | completed (b : β)
  /-- the body raised and the generator swallowed the exception -/
  | suppressed (e : PyError)
deriving DecidableEq

/-- Result of executing the whole `with` block: the outcome, whether
`driver.quit()` was called during exit, and the lines printed. -/
structure WithResult (β : Type) where
  outcome : WithOutcome β
  quitCalled : Bool
  log : List String

/-- The two lines the generator's `except` clauses print for an exception. -/
def managedDriverErrorLog : PyError → List String
  | .fileNotFound msg =>
      ["\n[ERROR] Required file not found: " ++ msg,
       "[INFO] Please run 'Install Chrome for Testing' in PySeed Manager."]
  | .exception msg =>
      ["\n[ERROR] Chrome setup failed: " ++ msg]

/-- The `finally` clause: quit unless `keep_open`, and print which. -/
def managedDriverFinallyLog (keep_open : Bool) : List String :=
  if keep_open then ["[INFO] Chrome left open for manual inspection."]
  else ["[INFO] Chrome closed."]

/-- `with manager.managed_driver(profile_name, keep_open) as driver: body`
under the contextlib semantics above.  `managed_driver` calls
`create_driver(profile_name)`, i.e. with `detach=False`. -/
def run_managed_driver {β : Type} (env : ChromeEnv) (profile_name : Option String)
    (keep_open : Bool) (body : Driver → BodyOutcome β) : WithResult β :=
  let launchLine :=
    "[INFO] Launching Chrome with profile: " ++ profile_name.getD DEFAULT_PROFILE_NAME ++ "..."
  match create_driver env profile_name false with
  | .error e =>
      { outcome := .entryRaised "generator didn't yield"
        quitCalled := false
        log := launchLine :: managedDriverErrorLog e }
  | .ok driver =>
      match body driver with
      | .value b =>
          { outcome := .completed b
            quitCalled := !keep_open
            log := launchLine :: managedDriverFinallyLog keep_open }
      | .raised e =>
          { outcome := .suppressed e
            quitCalled := !keep_open
            log := launchLine :: (managedDriverErrorLog e ++ managedDriverFinallyLog keep_open) }

/-! ### Orchestrator (src/core.py) -/

/-- A selenium exception as the surrounding Python code sees it. -/
def DriverError.toPyError : DriverError → PyError
  | .timeout => .exception "TimeoutException"
  | .other msg => .exception msg

/-- The `with`-body of `MainApplication.run_youtube_demo`: the
`if not driver` guard never fires (when setup fails the `with`-entry raises
instead of yielding `None`), so the body runs `search_tech_news` with the
configured default term; any selenium exception it raises is a raised body
outcome. -/
def demoBody (denv : DomEnv) (_driver : Driver) : BodyOutcome (List String) :=
  match search_tech_news denv (some DEFAULT_SEARCH_TERM) with
  | .ok titles => .value titles
  | .error e => .raised e.toPyError

/-- Result of one `run_youtube_demo` call. -/
structure DemoResult where
  /-- the call returned normally (every exception is caught at its top level) -/
  completed : Bool
  /-- the body ran, i.e. a search was attempted -/
  searchAttempted : Bool
  /-- titles were returned, so `_save_results` ran -/
  savedResults : Bool
  /-- `driver.quit()` happened during scope exit -/
  quitCalled : Bool
deriving DecidableEq, Repr

/-- `MainApplication.run_youtube_demo`: open a managed (non-persistent)
session, run the search body, and catch `KeyboardInterrupt` or any other
exception at the top level, so the call always completes. -/
def run_youtube_demo (cenv : ChromeEnv) (denv : DomEnv) : DemoResult :=
  let r := run_managed_driver cenv none false (demoBody denv)
  match r.outcome with
  | .entryRaised _ =>
      { completed := true, searchAttempted := false, savedResults := false
        quitCalled := r.quitCalled }
  | .completed titles =>
      { completed := true, searchAttempted := true, savedResults := !titles.isEmpty
        quitCalled := r.quitCalled }
  | .suppressed _ =>
      { completed := true, searchAttempted := true, savedResults := false
        quitCalled := r.quitCalled }

/-! ### Shared helper lemmas -/

/-- Folding `collectTitle` over elements that all carry a nonempty title
collects exactly those titles, appended in order to the accumulator. -/
theorem foldl_collectTitle (ts : List String) :
    ∀ (acc : List String), (∀ t ∈ ts, t ≠ "") →
      (ts.map some).foldl collectTitle acc = acc ++ ts := by
  induction ts with
  | nil => intro acc _; simp
  | cons t rest ih =>
    intro acc h
    have ht : t ≠ "" := h t (by simp)
    simp only [List.map_cons, List.foldl_cons, collectTitle, if_pos ht, ht]
    rw [ih (acc ++ [t]) (fun x hx => h x (by simp [hx]))]
    simp

/-- Looking up a path just written finds the written entry. -/
theorem lookupEntry_setEntry_self (k : String) (v : FsEntry) :
    ∀ (l : List (String × FsEntry)), lookupEntry k (setEntry k v l) = some v := by
  intro l
  induction l with
  | nil => simp [setEntry, lookupEntry]
  | cons kv rest ih =>
    by_cases hk : kv.1 = k
    · simp [setEntry, lookupEntry, hk]
    · cases kv with
      | mk k2 v2 =>
        simp only [setEntry, lookupEntry]
        simp only at hk
        simp [lookupEntry, hk, ih]

/-- Left cancellation for string append. -/
theorem string_append_cancel_left {a b c : String} (h : a ++ b = a ++ c) : b = c := by
  have hd := congrArg String.data h
  simp only [String.data_append] at hd
  have hbc := List.append_cancel_left hd
  cases b; cases c
  exact congrArg String.mk hbc

/-! Injectivity of `Nat.repr`, via a decimal decoder for the digit lists
produced by `Nat.toDigitsCore`. -/

/-- Numeric value of a decimal digit character. -/
def digitVal (c : Char) : Nat := c.toNat - 48

/-- Decode a most-significant-first decimal digit list. -/
def decodeDigits (l : List Char) : Nat :=
  l.foldl (fun a c => 10 * a + digitVal c) 0

/-- `digitChar` of a decimal digit decodes back to it. -/
theorem digitVal_digitChar (m : Nat) (h : m < 10) :
    digitVal (Nat.digitChar m) = m := by
  interval_cases m <;> rfl

/-- Decoding after appending one digit. -/
theorem decodeDigits_append (l : List Char) (c : Char) :
    decodeDigits (l ++ [c]) = 10 * decodeDigits l + digitVal c := by
  simp [decodeDigits, List.foldl_append]

/-- `Nat.toDigitsCore` only prepends to its accumulator. -/
theorem toDigitsCore_append (fuel : Nat) :
    ∀ (n : Nat) (ds : List Char),
      Nat.toDigitsCore 10 fuel n ds = Nat.toDigitsCore 10 fuel n [] ++ ds := by
  induction fuel with
  | zero => intro n ds; simp [Nat.toDigitsCore]
  | succ fuel ih =>
    intro n ds
    simp only [Nat.toDigitsCore]
    by_cases h : n / 10 = 0
    · simp [h]
    · simp only [h, if_false]
      rw [ih (n / 10) [Nat.digitChar (n % 10)],
        ih (n / 10) (Nat.digitChar (n % 10) :: ds)]
      simp

/-- With enough fuel, decoding the digits of `n` recovers `n`. -/
theorem decodeDigits_toDigitsCore (fuel : Nat) :
    ∀ (n : Nat), n < fuel → decodeDigits (Nat.toDigitsCore 10 fuel n []) = n := by
  induction fuel with
  | zero => intro n h; omega
  | succ fuel ih =>
    intro n h
    simp only [Nat.toDigitsCore]
    by_cases hdiv : n / 10 = 0
    · have hn : n < 10 := (Nat.div_eq_zero_iff (by norm_num)).mp hdiv
      simp only [hdiv, if_true, decodeDigits, List.foldl]
      have hdc := digitVal_digitChar (n % 10) (Nat.mod_lt n (by norm_num))
      rw [Nat.mod_eq_of_lt hn] at hdc
      simpa [Nat.mod_eq_of_lt hn] using hdc
    · have hn1 : 1 ≤ n := by
        by_contra hc
        push_neg at hc
        interval_cases n
        simp at hdiv
      have hlt : n / 10 < fuel := by
        have := Nat.div_lt_self hn1 (by norm_num : (1:Nat) < 10)
        omega
      simp only [hdiv, if_false]
      rw [toDigitsCore_append fuel (n / 10) [Nat.digitChar (n % 10)]]
      rw [decodeDigits_append]
      rw [ih (n / 10) hlt]
      rw [digitVal_digitChar (n % 10) (Nat.mod_lt n (by norm_num))]
      omega

/-- `Nat.repr` is injective. -/
theorem nat_repr_injective {m n : Nat} (h : Nat.repr m = Nat.repr n) : m = n := by
  have hd : Nat.toDigits 10 m = Nat.toDigits 10 n := congrArg String.data h
  have hm := decodeDigits_toDigitsCore (m + 1) m (Nat.lt_succ_self m)
  have hn := decodeDigits_toDigitsCore (n + 1) n (Nat.lt_succ_self n)
  simp only [Nat.toDigits] at hd
  rw [← hm, ← hn, hd]

/-- `mkdirParent` touches only the directory set, never the files. -/
theorem mkdirParent_files (fs : FS) (p : String) : (fs.mkdirParent p).files = fs.files := by
  unfold FS.mkdirParent
  split <;> rfl

/-- A successful `create_driver` returns the timestamp-suffixed profile path
under the configured root. -/
theorem create_driver_profilePath (env : ChromeEnv) (profile_name : Option String)
    (detach : Bool) (d : Driver)
    (h : create_driver env profile_name detach = .ok d) :
    d.profilePath =
      env.profileRoot ++ "/" ++ profile_name.getD DEFAULT_PROFILE_NAME ++ "_" ++
        Nat.repr env.timestamp := by
  unfold create_driver at h
  by_cases hb : env.chromeBinaryExists = false
  · simp [hb] at h
  · by_cases hd2 : env.driverBinaryExists = false
    · simp [hb, hd2] at h
    · simp only [hb, hd2, if_false] at h
      cases hl : env.launchOutcome with
      | ok u =>
        simp only [hl] at h
        cases h
        rfl
      | error m =>
        simp [hl] at h

/-! ### Concrete runs used by witnesses and counterexamples -/

/-- A run in which every driver primitive succeeds and the page exposes two
title-bearing result elements. -/
def domEnvAllOk : DomEnv :=
  { navigateOutcome := .ok (), bodyWait := .ok (), searchBoxWait := .ok ()
    clearOutcome := .ok (), typeOutcome := .ok (), submitOutcome := .ok ()
    resultsWait := .ok ()
    videoTitleWait := .ok [some "Tech News Today", some "AI Weekly"] }

/-- A run in which the wait for the results container times out, so the
search step fails, although title extraction would still find elements. -/
def domEnvSearchFails : DomEnv :=
  { domEnvAllOk with resultsWait := .error .timeout }

/-- A run in which navigation itself fails. -/
def domEnvNavFails : DomEnv :=
  { domEnvAllOk with navigateOutcome := .error .timeout }

/-- A run in which the wait for result-title elements times out. -/
def domEnvNoTitles : DomEnv :=
  { domEnvAllOk with videoTitleWait := .error .timeout }

/-- A `FileHandler` with the project directory as base path. -/
def fhDemo : FileHandler := { base_path := "/home/user/project" }

/-- A filesystem with a non-JSON text file, an unreadable file, and an
unwritable output path. -/
def fsDemo : FS :=
  { files := [("/data/bad.json", .textDoc "not json"), ("/data/locked.csv", .unreadable)]
    dirs := ["/data"]
    unwritable := ["/data/out.txt"] }

/-- The mapping `_save_results` writes. -/
def sampleResults : JsonVal :=
  .obj [("search_term", .str "What's New"),
        ("timestamp", .str "2026-10-12 00:00:00"),
        ("results", .arr [.str "Tech News Today", .str "AI Weekly"])]

/-- Host state in which both binaries resolve and exist and the launch
succeeds, observed at clock second 1760227200. -/
def chromeEnvOk : ChromeEnv :=
  { chromeBinaryPath := "/data/ChromeForTesting/chrome-linux64/chrome"
    driverBinaryPath := "/data/ChromeForTesting/chromedriver-linux64/chromedriver"
    chromeBinaryExists := true, driverBinaryExists := true
    profileRoot := "/data/ChromeProfiles/PySeed_Demo_Project_profile"
    timestamp := 1760227200
    launchOutcome := .ok (), platform := "Linux" }

/-- Host state in which the resolved Chrome binary does not exist on disk. -/
def chromeEnvMissingBinary : ChromeEnv :=
  { chromeEnvOk with
    chromeBinaryExists := false, driverBinaryExists := false
    launchOutcome := .error "no binary" }

/-- A second `create_driver` call observing the same clock second as
`chromeEnvOk`. -/
def chromeEnvSameSecond : ChromeEnv := chromeEnvOk

/-- A `create_driver` call observing the next clock second. -/
def chromeEnvNextSecond : ChromeEnv :=
  { chromeEnvOk with timestamp := 1760227201 }

/-! ### The claims -/

/-- C1: once navigation completed, `search_tech_news` returns `.ok []`
whenever the `search` step returns false — regardless of what extraction
would have found — and, when `search` succeeds, the ordered title list that
`get_video_titles` (at its default maximum of 10) extracts. -/
theorem search_tech_news_gates_on_search (env : DomEnv) (t : String)
    (hnav : navigate_to_youtube env = .ok ()) :
    (search env t = false → search_tech_news env (some t) = .ok []) ∧
    (search env t = true → search_tech_news env (some t) = .ok (get_video_titles env 10)) := by
  constructor <;> intro hs <;>
    simp [search_tech_news, hnav, hs, Option.getD, Bind.bind, Except.bind, Pure.pure, Except.pure]

/-- Witness for C1: a run whose results-container wait times out (so
`search` fails) yields `[]` even though two titles were extractable, and the
all-success run yields the extracted titles. -/
theorem search_tech_news_gates_on_search_witness :
    search_tech_news domEnvSearchFails (some "X") = .ok [] ∧
    search_tech_news domEnvAllOk (some "X") = .ok ["Tech News Today", "AI Weekly"] := by
  constructor
  · exact (search_tech_news_gates_on_search domEnvSearchFails "X" rfl).1 rfl
  · have h := (search_tech_news_gates_on_search domEnvAllOk "X" rfl).2 rfl
    rw [h]
    rfl

/-- C10 (implicit): `navigate_to_youtube` catches no exceptions, so a
navigation failure propagates out of `search_tech_news` as the exception
itself — unlike search and extraction failures, which become `false`/`[]`. -/
theorem navigate_failure_propagates (env : DomEnv) (st : Option String) (e : DriverError)
    (hnav : navigate_to_youtube env = .error e) :
    search_tech_news env st = .error e := by
  simp [search_tech_news, hnav, Bind.bind, Except.bind]

/-- Witness for C10: a navigation timeout surfaces as the exception. -/
theorem navigate_failure_propagates_witness :
    search_tech_news domEnvNavFails (some "X") = .error .timeout :=
  navigate_failure_propagates domEnvNavFails (some "X") .timeout rfl

/-- C7: when the results container exposes `n < 10` title-bearing elements,
`get_video_titles` with `max_results = 10` returns exactly those `n` titles
in DOM order, one title read per element. -/
theorem get_video_titles_fewer_than_max (env : DomEnv) (ts : List String)
    (h1 : env.videoTitleWait = .ok (ts.map some))
    (h2 : ts.length < 10)
    (h3 : ∀ t ∈ ts, t ≠ "") :
    get_video_titles env 10 = ts := by
  simp only [get_video_titles, h1]
  rw [List.take_of_length_le (by simpa using Nat.le_of_lt h2)]
  simpa using foldl_collectTitle ts [] h3

/-- Witness for C7: two elements against a maximum of ten. -/
theorem get_video_titles_fewer_than_max_witness :
    get_video_titles domEnvAllOk 10 = ["Tech News Today", "AI Weekly"] :=
  get_video_titles_fewer_than_max domEnvAllOk ["Tech News Today", "AI Weekly"] rfl
    (by norm_num) (by decide)

/-- C8: if the bounded wait for result elements raises a timeout,
`get_video_titles` returns `[]`; its catch-all makes it total, so no
exception reaches the caller. -/
theorem get_video_titles_timeout_empty (env : DomEnv) (max_results : Nat)
    (h : env.videoTitleWait = .error .timeout) :
    get_video_titles env max_results = [] := by
  simp [get_video_titles, h]

/-- Witness for C8. -/
theorem get_video_titles_timeout_empty_witness :
    get_video_titles domEnvNoTitles 10 = [] :=
  get_video_titles_timeout_empty domEnvNoTitles 10 rfl

/-- C4: `FileHandler` operations are total and return their safe defaults on
every failure path: `""`/`.obj []` (the empty dict)/`[]` for reads on a
missing file, an unreadable file, or a JSON decode failure, and `false` for
writes to an unwritable path. -/
theorem file_handler_failure_defaults (fh : FileHandler) (fs : FS) (p content : String)
    (data : JsonVal) (rows : List CsvRecord) (fieldnames : Option (List String)) :
    (lookupEntry (fh.resolve_path p) fs.files = none →
      fh.read_text fs p = "" ∧ fh.read_json fs p = .obj [] ∧ fh.read_csv fs p = []) ∧
    (lookupEntry (fh.resolve_path p) fs.files = some .unreadable →
      fh.read_text fs p = "" ∧ fh.read_json fs p = .obj [] ∧ fh.read_csv fs p = []) ∧
    (∀ s, lookupEntry (fh.resolve_path p) fs.files = some (.textDoc s) →
      fh.read_json fs p = .obj []) ∧
    (pathListed (fh.resolve_path p) fs.unwritable = true →
      (fh.write_text fs p content).1 = false ∧
      (fh.write_json fs p data).1 = false ∧
      (fh.write_csv fs p rows fieldnames).1 = false) := by
  refine ⟨?_, ?_, ?_, ?_⟩
  · intro h
    exact ⟨by simp [FileHandler.read_text, h], by simp [FileHandler.read_json, h],
      by simp [FileHandler.read_csv, h]⟩
  · intro h
    exact ⟨by simp [FileHandler.read_text, h, FsEntry.textContent],
      by simp [FileHandler.read_json, h], by simp [FileHandler.read_csv, h]⟩
  · intro s h
    simp [FileHandler.read_json, h]
  · intro h
    refine ⟨by simp [FileHandler.write_text, h], by simp [FileHandler.write_json, h], ?_⟩
    cases rows with
    | nil => rfl
    | cons first rest => simp [FileHandler.write_csv, h]

/-- Witness for C4: a missing path, an unreadable file, a decode failure and
an unwritable path, each at a concrete filesystem. -/
theorem file_handler_failure_defaults_witness :
    fhDemo.read_json fsDemo "missing.json" = .obj [] ∧
    fhDemo.read_csv fsDemo "missing.json" = [] ∧
    fhDemo.read_text fsDemo "/data/locked.csv" = "" ∧
    fhDemo.read_json fsDemo "/data/bad.json" = .obj [] ∧
    (fhDemo.write_text fsDemo "/data/out.txt" "hello").1 = false := by
  refine ⟨?_, ?_, ?_, ?_, ?_⟩
  · exact ((file_handler_failure_defaults fhDemo fsDemo "missing.json" "" (.obj []) []
      none).1 rfl).2.1
  · exact ((file_handler_failure_defaults fhDemo fsDemo "missing.json" "" (.obj []) []
      none).1 rfl).2.2
  · exact ((file_handler_failure_defaults fhDemo fsDemo "/data/locked.csv" "" (.obj []) []
      none).2.1 rfl).1
  · exact (file_handler_failure_defaults fhDemo fsDemo "/data/bad.json" "" (.obj []) []
      none).2.2.1 "not json" rfl
  · exact ((file_handler_failure_defaults fhDemo fsDemo "/data/out.txt" "hello" (.obj []) []
      none).2.2.2 rfl).1

/-- C5: a successful `write_json` followed by `read_json` on the same path
returns exactly the mapping that was written. -/
theorem write_json_read_json_round_trip (fh : FileHandler) (fs : FS) (p : String)
    (data : JsonVal) (fs2 : FS) (hw : fh.write_json fs p data = (true, fs2)) :
    fh.read_json fs2 p = data := by
  unfold FileHandler.write_json at hw
  by_cases hu : pathListed (fh.resolve_path p) fs.unwritable = true
  · simp [hu] at hw
  · simp only [hu, if_neg, Bool.false_eq_true, if_false, Prod.mk.injEq, true_and] at hw
    subst hw
    simp [FileHandler.read_json, lookupEntry_setEntry_self]

/-- Witness for C5 at the orchestrator's own output mapping. -/
theorem write_json_read_json_round_trip_witness :
    fhDemo.read_json
      (fhDemo.write_json fsDemo "results/youtube_results.json" sampleResults).2
      "results/youtube_results.json" = sampleResults :=
  write_json_read_json_round_trip fhDemo fsDemo "results/youtube_results.json"
    sampleResults _ rfl

/-- C6: `write_csv` with an empty record list returns `false` and leaves the
filesystem — files and directories alike — completely unchanged. -/
theorem write_csv_empty_no_write (fh : FileHandler) (fs : FS) (p : String)
    (fieldnames : Option (List String)) :
    fh.write_csv fs p [] fieldnames = (false, fs) := rfl

/-- C3: whenever a driver was created, every exit of the `managed_driver`
block — normal completion, early return, or a body exception — runs the
`finally` clause, which calls `driver.quit()` exactly when `keep_open` is
false and makes no termination call when it is true. -/
theorem managed_driver_quit_unless_keep_open (β : Type) (env : ChromeEnv)
    (profile_name : Option String) (keep_open : Bool) (body : Driver → BodyOutcome β)
    (hcreate : (create_driver env profile_name false).toOption.isSome = true) :
    (run_managed_driver env profile_name keep_open body).quitCalled = !keep_open := by
  unfold run_managed_driver
  cases hc : create_driver env profile_name false with
  | error e =>
    rw [hc] at hcreate
    simp [Except.toOption] at hcreate
  | ok d =>
    simp only [hc]
    cases body d <;> rfl

/-- Witness for C3: with the default `keep_open=false` the quit happens. -/
theorem managed_driver_quit_unless_keep_open_witness :
    (run_managed_driver chromeEnvOk none false
      (fun d => BodyOutcome.value d.profilePath)).quitCalled = true := by
  simpa using managed_driver_quit_unless_keep_open String chromeEnvOk none false
    (fun d => BodyOutcome.value d.profilePath) rfl

/-- C2 (documenting the defect): with a missing browser binary, the
generator catches the `FileNotFoundError` and prints the
required-file-not-found diagnostic, but — having never yielded — makes the
`with` statement raise `RuntimeError("generator didn't yield")` at block
entry instead of yielding a null handle; the orchestrator completes without
attempting a search only because its top-level handler catches that
`RuntimeError`, and the `if not driver` null-handle check in the body never
runs. -/
theorem managed_driver_missing_binary_raises_at_entry :
    (run_managed_driver chromeEnvMissingBinary none false (demoBody domEnvAllOk)).outcome =
      WithOutcome.entryRaised "generator didn't yield" ∧
    (run_managed_driver chromeEnvMissingBinary none false (demoBody domEnvAllOk)).log =
      ["[INFO] Launching Chrome with profile: PySeed_Demo_Project_profile...",
       "\n[ERROR] Required file not found: Chrome binary not found at: /data/ChromeForTesting/chrome-linux64/chrome",
       "[INFO] Please run 'Install Chrome for Testing' in PySeed Manager."] ∧
    run_youtube_demo chromeEnvMissingBinary domEnvAllOk =
      { completed := true, searchAttempted := false, savedResults := false
        quitCalled := false } :=
  ⟨rfl, rfl, rfl⟩

/-- C9 counterexample: two `create_driver` calls with the same profile name
that observe the same clock second (`int(time.time())` has one-second
resolution) compute the same profile directory path. -/
theorem create_driver_same_second_collision :
    (create_driver chromeEnvOk (some "demo") false).toOption.map Driver.profilePath =
      some "/data/ChromeProfiles/PySeed_Demo_Project_profile/demo_1760227200" ∧
    (create_driver chromeEnvSameSecond (some "demo") false).toOption.map Driver.profilePath =
      some "/data/ChromeProfiles/PySeed_Demo_Project_profile/demo_1760227200" :=
  ⟨rfl, rfl⟩

/-- C9 amended: `create_driver` calls (same profile name, same profile root)
that observe distinct clock seconds compute distinct profile directory
paths. -/
theorem create_driver_distinct_seconds_distinct_paths (env1 env2 : ChromeEnv)
    (profile_name : Option String) (dt1 dt2 : Bool)
    (hroot : env1.profileRoot = env2.profileRoot)
    (hts : env1.timestamp ≠ env2.timestamp)
    (h1 : (create_driver env1 profile_name dt1).toOption.isSome = true)
    (h2 : (create_driver env2 profile_name dt2).toOption.isSome = true) :
    (create_driver env1 profile_name dt1).toOption.map Driver.profilePath ≠
      (create_driver env2 profile_name dt2).toOption.map Driver.profilePath := by
  cases hc1 : create_driver env1 profile_name dt1 with
  | error e =>
    rw [hc1] at h1
    simp [Except.toOption] at h1
  | ok d1 =>
    cases hc2 : create_driver env2 profile_name dt2 with
    | error e =>
      rw [hc2] at h2
      simp [Except.toOption] at h2
    | ok d2 =>
      simp only [Except.toOption, Option.map_some]
      intro hEq
      have hp1 := create_driver_profilePath env1 profile_name dt1 d1 hc1
      have hp2 := create_driver_profilePath env2 profile_name dt2 d2 hc2
      have hpp : d1.profilePath = d2.profilePath := by simpa using hEq
      rw [hp1, hp2, hroot] at hpp
      exact hts (nat_repr_injective (string_append_cancel_left hpp))

/-- Witness for the amended C9: consecutive clock seconds give distinct
paths. -/
theorem create_driver_distinct_seconds_distinct_paths_witness :
    (create_driver chromeEnvOk (some "demo") false).toOption.map Driver.profilePath ≠
      (create_driver chromeEnvNextSecond (some "demo") false).toOption.map Driver.profilePath :=
  create_driver_distinct_seconds_distinct_paths chromeEnvOk chromeEnvNextSecond
    (some "demo") false false rfl (by decide) rfl rfl

end PySeed
